import Mathlib

/-!
A shallow embedding of the filter-row and table components of the
`mui-data-table` repository (`src/lib/src/Filter/FilterRow.component.tsx` and
the internal `_Table` component), together with theorems settling the spec
claims about them.

JavaScript values are modelled as follows: a filter value
(`string | number | boolean | null`) becomes the inductive `FilterVal`, with
JS truthiness made explicit (`FilterVal.jsFalsy`); nullable strings
(`path`, `operator`, `type`) become `Option String`, with JS truthiness
`optStrTruthy` (`null`/`undefined` and `""` are falsy).  JS numbers are
modelled as `Int` (the inputs involved are integers; `0` is the falsy case
the code branches on).
-/

/-- A filter value as it appears in the component state: a string, a number,
a boolean, or `null`. -/
inductive FilterVal where
  | null : FilterVal
  | str : String → FilterVal
  | num : Int → FilterVal
  | bool : Bool → FilterVal
deriving DecidableEq, Repr

/-- JS truthiness of a filter value: `null`, `""`, `0` and `false` are falsy. -/
def FilterVal.jsFalsy : FilterVal → Bool
  | .null => true
  | .str s => s == ""
  | .num n => n == 0
  | .bool b => !b

/-- `typeof v === "boolean"`. -/
def FilterVal.isBool : FilterVal → Bool
  | .bool _ => true
  | _ => false

/-- `typeof v === "number"`. -/
def FilterVal.isNum : FilterVal → Bool
  | .num _ => true
  | _ => false

/-- JS truthiness of a nullable string: `null` and `""` are falsy. -/
def optStrTruthy : Option String → Bool
  | none => false
  | some s => s != ""

/-- The component-local filter state: `{ path, operator, value, type }`. -/
structure ActiveFilter where
  path : Option String
  operator : Option String
  value : FilterVal
  type : Option String
deriving DecidableEq, Repr

/-- `EMPTY_FILTER = { path: null, operator: "=", value: "", type: null }`. -/
def EMPTY_FILTER : ActiveFilter :=
  { path := none, operator := some "=", value := .str "", type := none }

/-- Whether `pat` occurs at the head of `s`. -/
def leads : List Char → List Char → Bool
  | [], _ => true
  | _ :: _, [] => false
  | p :: ps, c :: cs => p == c && leads ps cs

/-- Whether `pat` occurs as a contiguous run inside `s`. -/
def charsContain (pat : List Char) (s : List Char) : Bool :=
  match s with
  | [] => pat.isEmpty
  | _ :: rest => leads pat s || charsContain pat rest

/-- JS `s.includes(search)`: substring containment. -/
def strIncludes (s : String) (search : String) : Bool :=
  charsContain search.toList s.toList

/-- `op?.includes("exists")`: whether the (nullable) operator string contains
the substring `"exists"`; `none` gives `false` (the optional chain yields
`undefined`, which is falsy wherever this expression is used). -/
def opContainsExists : Option String → Bool
  | none => false
  | some s => strIncludes s "exists"

/-- The per-field error flags computed by the validation `useEffect`. -/
structure FilterErrors where
  path : Bool
  operator : Bool
  value : Bool
deriving DecidableEq, Repr

/-- The `errs` object of the validation `useEffect` (FilterRow, lines
108-117): `path` errs when falsy, `operator` errs when falsy, `value` errs
when the operator is not an existence check, the value is neither boolean nor
number, and the value is falsy. -/
def computeErrors (f : ActiveFilter) : FilterErrors :=
  { path := !optStrTruthy f.path,
    operator := !optStrTruthy f.operator,
    value := !opContainsExists f.operator && !f.value.isBool && !f.value.isNum
      && f.value.jsFalsy }

/-- `Object.values(errs).some((v) => v)`. -/
def hasError (e : FilterErrors) : Bool :=
  e.path || e.operator || e.value

/-- A filter is submitted (the debounced submit is invoked by the validation
effect) exactly when no field errs. -/
def validateFilter (f : ActiveFilter) : Bool :=
  !hasError (computeErrors f)

/-- `handleSubmit` (FilterRow, lines 98-104): before calling `onSubmit`, the
value is forced to `null` when it is falsy or the operator contains
`"exists"`. The result is the filter passed to the parent `onSubmit`. -/
def handleSubmit (f : ActiveFilter) : ActiveFilter :=
  if f.value.jsFalsy || opContainsExists f.operator then
    { f with value := .null }
  else f

/-- The submission pipeline for one settled filter state: the validation
effect invokes the debounced submit iff validation passes, and the debounced
submit (once the 500ms quiet period elapses) runs `handleSubmit`, whose
result reaches the parent `onSubmit`.  `none` means `onSubmit` is never
invoked for this state.  The debounce delay itself is a real-time matter and
is abstracted away: `some` means the state is emitted once the debounce
fires. -/
def emitFilter (f : ActiveFilter) : Option ActiveFilter :=
  if validateFilter f then some (handleSubmit f) else none

/-- An option of the operator select, as produced by `getOperatorOptions`.
The label is `Option String` because the source can produce `undefined`
(`o.typeLabelMap.default!` when no default exists). -/
structure OperatorSelectOption where
  label : Option String
  value : String
deriving DecidableEq, Repr

/-- An option of the column select (`filterOptions`): the column's `path`
(its `value`), its data type and its declared default operator. -/
structure ColumnSelectOption where
  value : String
  type : Option String
  defaultOperator : Option String
deriving DecidableEq, Repr

/-- `handleColumnChange` (FilterRow, lines 125-133): sets
`path := selected?.value ?? null`, `type := selected?.type ?? null`,
`operator := selected?.defaultOperator ?? null`, `value := ""`, spreading the
previous state for the rest. -/
def handleColumnChange (f : ActiveFilter) (selected : Option ColumnSelectOption) :
    ActiveFilter :=
  { f with
    path := selected.map (fun c => c.value),
    type := selected.bind (fun c => c.type),
    operator := selected.bind (fun c => c.defaultOperator),
    value := .str "" }

/-- `handleOperatorChange` (FilterRow, lines 135-140): sets
`operator := selected?.value ?? null`, everything else unchanged. -/
def handleOperatorChange (f : ActiveFilter) (selected : Option OperatorSelectOption) :
    ActiveFilter :=
  { f with operator := selected.map (fun o => o.value) }

/-- `handleValueChange` (FilterRow, lines 142-147). -/
def handleValueChange (f : ActiveFilter) (newValue : FilterVal) : ActiveFilter :=
  { f with value := newValue }

/-- `handleRemove` (FilterRow, lines 94-96): `onRemove` receives the `value`
prop (the row's filter as held in the parent's active filter set), not the
locally edited state.  Arguments are the `value` prop and the local `filter`
state; the result is what `onRemove` receives. -/
def reportedOnRemove (value : ActiveFilter) (_filter : ActiveFilter) : ActiveFilter :=
  value

/-- The `disabled` prop of the remove `IconButton` (FilterRow, line 152):
`last && !value.path`. -/
def removeDisabled (last : Bool) (value : ActiveFilter) : Bool :=
  last && !optStrTruthy value.path

/-- `typeLabelMap` of an operator catalog entry: the optional `default` label
and the per-data-type labels (an association list of type tag to label). -/
structure TypeLabelMap where
  default : Option String
  labels : List (String × String)
deriving DecidableEq, Repr

/-- An entry of the static `OPERATORS` catalog: the operator id and its
optional type-label map.  The catalog itself lives in `_dataTable.consts`,
outside the inspected sources, so functions over it are parameterised by the
catalog. -/
structure FilterOperator where
  value : String
  typeLabelMap : Option TypeLabelMap
deriving DecidableEq, Repr

/-- `m[t]`: look a data-type tag up in the per-type labels. -/
def lookupLabel (labels : List (String × String)) (t : String) : Option String :=
  (labels.find? (fun p => p.1 == t)).map (fun p => p.2)

/-- `type! in o.typeLabelMap` guarded by `Boolean(type)`: key membership for a
truthy type tag. -/
def typeKeyMem (type : Option String) (m : TypeLabelMap) : Bool :=
  match type with
  | none => false
  | some t => t != "" && (lookupLabel m.labels t).isSome

/-- `(type && o.typeLabelMap[type])`: the type-specific label when the type
tag is truthy, `none` (JS `null`/`undefined`) otherwise. -/
def jsTypeLookup (type : Option String) (m : TypeLabelMap) : Option String :=
  match type with
  | none => none
  | some t => if t == "" then none else lookupLabel m.labels t

/-- The filter predicate of `getOperatorOptions` (FilterRow, line 66):
`!o.typeLabelMap || o.typeLabelMap.default || (Boolean(type) && type! in
o.typeLabelMap)`, with JS truthiness of the `default` label (absent or `""`
is falsy). -/
def operatorIncluded (type : Option String) (o : FilterOperator) : Bool :=
  match o.typeLabelMap with
  | none => true
  | some m => optStrTruthy m.default || typeKeyMem type m

/-- The label of `getOperatorOptions` (FilterRow, line 68):
`!o.typeLabelMap ? o.value : (type && o.typeLabelMap[type]) ??
o.typeLabelMap.default!` — `none` models the `undefined` that
`o.typeLabelMap.default!` yields when no default exists. -/
def operatorLabel (type : Option String) (o : FilterOperator) : Option String :=
  match o.typeLabelMap with
  | none => some o.value
  | some m => (jsTypeLookup type m).orElse (fun _ => m.default)

/-- `getOperatorOptions` (FilterRow, lines 65-71): filter the catalog, then
map each surviving operator to a select option. -/
def getOperatorOptions (catalog : List FilterOperator) (type : Option String) :
    List OperatorSelectOption :=
  (catalog.filter (operatorIncluded type)).map
    (fun o => { label := operatorLabel type o, value := o.value })

/-- Spec reading of the inclusion rule (for the refinement claim C8): an
operator is listed when it has no type-label map, or it has a default label,
or it has an explicit label for the current type. -/
def specOperatorIncluded (type : Option String) (o : FilterOperator) : Bool :=
  match o.typeLabelMap with
  | none => true
  | some m =>
    m.default.isSome ||
      (match type with
       | none => false
       | some t => (lookupLabel m.labels t).isSome)

/-- Spec reading of the label rule (for the refinement claim C8): the
type-specific label if present, otherwise the default label, otherwise the
raw operator id. -/
def specOperatorLabel (type : Option String) (o : FilterOperator) : String :=
  match o.typeLabelMap with
  | none => o.value
  | some m =>
    (((match type with
       | none => none
       | some t => lookupLabel m.labels t) : Option String).orElse
      (fun _ => m.default)).getD o.value

/-- Well-formedness of the operator catalog and the current type tag, true of
the real `OPERATORS` catalog: display labels and data-type tags are non-empty
strings, so JS truthiness of a label coincides with its presence. -/
def wfOperator (o : FilterOperator) : Bool :=
  match o.typeLabelMap with
  | none => true
  | some m =>
    (match m.default with
     | none => true
     | some d => d != "")

/-- Well-formedness of a (nullable) data-type tag: not the empty string. -/
def wfType (type : Option String) : Bool :=
  match type with
  | none => true
  | some t => t != ""

/-- A per-column entry of `structure.flattened`: whether it declares a
footer (`Boolean(struct.footer)`), and the flattening-computed flags
`isColGroup` and `hasColGroupFooter`. -/
structure FlatColumn where
  key : String
  footer : Bool
  isColGroup : Bool
  hasColGroupFooter : Bool
deriving DecidableEq, Repr

/-- A top-level entry of `structure`: its optional `colGroup` (the list of
grouped columns; in JS even an empty array is truthy, so presence is what the
`Boolean(struct.colGroup && struct.footer)` test sees) and whether it
declares a footer. -/
structure StructureEntry where
  key : String
  colGroup : Option (List FlatColumn)
  footer : Bool
deriving DecidableEq, Repr

/-- The column structure as `_Table` consumes it: the top-level entries and
the flattened column list. -/
structure TableStructure where
  entries : List StructureEntry
  flattened : List FlatColumn
deriving DecidableEq, Repr

/-- `hasFooter` (_Table, line 328): some flattened column declares a footer. -/
def hasFooter (s : TableStructure) : Bool :=
  s.flattened.any (fun c => c.footer)

/-- `hasColGroupFooter` (_Table, lines 329-332): some top-level entry has
both a `colGroup` and a `footer`. -/
def hasColGroupFooter (s : TableStructure) : Bool :=
  s.entries.any (fun e => e.colGroup.isSome && e.footer)

/-- Whether the `TableFooter` element is rendered at all (_Table, line 399). -/
def footerRendered (s : TableStructure) : Bool :=
  hasFooter s || hasColGroupFooter s

/-- Whether the plain (per-column) footer row is rendered (_Table, lines
399-401): inside the footer guard, when `hasFooter`. -/
def plainFooterRowRendered (s : TableStructure) : Bool :=
  footerRendered s && hasFooter s

/-- Whether the column-group footer row is rendered (_Table, lines 399 and
413): inside the footer guard, when `hasColGroupFooter`. -/
def colGroupFooterRowRendered (s : TableStructure) : Bool :=
  footerRendered s && hasColGroupFooter s

/-- The `rowSpan` of a plain-footer cell (_Table, line 406):
`hasColGroupFooter && (!struct.isColGroup || !struct.hasColGroupFooter) ? 2
: 1`. -/
def footerCellRowSpan (s : TableStructure) (c : FlatColumn) : Nat :=
  if hasColGroupFooter s && (!c.isColGroup || !c.hasColGroupFooter) then 2 else 1

/-- `allColumnsVisible` (_Table, lines 323-326): the hidden-columns map is
modelled as an association list of column key to hidden flag;
`!values.length || values.every((value) => !value)`. -/
def allColumnsVisible (hiddenColumns : List (String × Bool)) : Bool :=
  let values := hiddenColumns.map (fun p => p.2)
  values.isEmpty || values.all (fun v => !v)

/-- The `disabled` prop of the `Show all` button (_Table, line 436). -/
def showAllDisabled (hiddenColumns : List (String × Bool)) : Bool :=
  allColumnsVisible hiddenColumns

/-- `parseInt(s, 10)` of JS: skip leading whitespace, read an optional sign
and then the longest digit prefix; `NaN` (here `none`) when no digit
follows. -/
def jsParseInt10 (s : String) : Option Int :=
  let cs := s.toList.dropWhile (fun c => c.isWhitespace)
  let signAndRest : Int × List Char :=
    match cs with
    | '-' :: r => (-1, r)
    | '+' :: r => (1, r)
    | r => (1, r)
  let ds := signAndRest.2.takeWhile (fun c => c.isDigit)
  if ds.isEmpty then none
  else some (signAndRest.1 *
    (ds.foldl (fun acc c => acc * 10 + Int.ofNat (c.toNat - 48)) 0))

/-- The argument object of the `update({ rowsPerPage, page })` call;
`rowsPerPage` is `Option Int` because `parseInt` can yield `NaN` (`none`). -/
structure UpdateArgs where
  rowsPerPage : Option Int
  page : Nat
deriving DecidableEq, Repr

/-- `onRowsPerPageChange` (_Table, lines 335-341): parses the input value in
base 10 and calls `update` with the parsed rows-per-page and `page: 0`. -/
def onRowsPerPageChange (targetValue : String) : UpdateArgs :=
  { rowsPerPage := jsParseInt10 targetValue, page := 0 }

/-- `onPageChange` (_Table, line 334): `update.page(newPage)` — the page
number forwarded to the external page updater. -/
def onPageChange (newPage : Int) : Int :=
  newPage

/-- Spec reading (claim C1): "the value is present" — the value is neither
`null` nor the empty string. -/
def valuePresent : FilterVal → Bool
  | .null => false
  | .str s => s != ""
  | .num _ => true
  | .bool _ => true

/-- The validation effect invokes the debounced submit exactly when the path
and operator are truthy and the value clause holds (value present, or of
boolean or numeric type, or existence operator). -/
theorem validateFilter_eq (f : ActiveFilter) :
    validateFilter f =
      (optStrTruthy f.path && optStrTruthy f.operator &&
        (valuePresent f.value || f.value.isBool || f.value.isNum ||
          opContainsExists f.operator)) := by
  obtain ⟨p, o, v, t⟩ := f
  simp only [validateFilter, hasError, computeErrors]
  cases hP : optStrTruthy p <;> cases hO : optStrTruthy o <;>
    cases hE : opContainsExists o <;> cases v <;>
    simp [FilterVal.isBool, FilterVal.isNum, FilterVal.jsFalsy, valuePresent,
      hP, hO, hE, bne]

/-- C1: for every filter state, the debounced submission is invoked iff the
path is non-empty, the operator is non-empty, and the value is present or of
boolean/numeric type or the operator denotes an existence check; whenever
path or operator is missing, submission never occurs. -/
theorem filterRow_submission_iff (f : ActiveFilter) :
    (validateFilter f = true ↔
      (optStrTruthy f.path = true ∧ optStrTruthy f.operator = true ∧
        (valuePresent f.value = true ∨ f.value.isBool = true ∨
          f.value.isNum = true ∨ opContainsExists f.operator = true))) ∧
    ((f.path = none ∨ f.path = some "" ∨ f.operator = none ∨ f.operator = some "") →
      validateFilter f = false) := by
  constructor
  · rw [validateFilter_eq]
    simp only [Bool.and_eq_true, Bool.or_eq_true]
    tauto
  · intro h
    rw [validateFilter_eq]
    rcases h with h | h | h | h <;> simp [h, optStrTruthy]

/-- Witness for C1 at a concrete input: with `path` missing, validation
fails, so no submission occurs. -/
theorem filterRow_submission_iff_witness :
    validateFilter ⟨none, some "=", .str "x", none⟩ = false :=
  (filterRow_submission_iff ⟨none, some "=", .str "x", none⟩).2 (Or.inl rfl)

/-- C2: for every filter whose operator denotes an existence check, the value
passed to the parent `onSubmit` is `null`, whatever the value was before. -/
theorem existsOperator_submits_null (f : ActiveFilter)
    (h : opContainsExists f.operator = true) :
    (handleSubmit f).value = .null ∧
      ∀ g, emitFilter f = some g → g.value = .null := by
  have h1 : (handleSubmit f).value = .null := by
    simp [handleSubmit, h]
  refine ⟨h1, ?_⟩
  intro g hg
  simp only [emitFilter] at hg
  split at hg
  · rw [← Option.some.inj hg]
    exact h1
  · simp at hg

/-- Witness for C2: a concrete filter with the `"!exists"` operator submits a
`null` value. -/
theorem existsOperator_submits_null_witness :
    opContainsExists (some "!exists") = true ∧
      (handleSubmit ⟨some "age", some "!exists", .str "x", some "string"⟩).value = .null :=
  ⟨by decide,
    (existsOperator_submits_null ⟨some "age", some "!exists", .str "x", some "string"⟩
      (by decide)).1⟩

/-- C3: selecting the `"exists"` operator on any state with a non-empty path
makes the pipeline submit `{path, operator: "exists", value: null, type}` on
that operator selection alone — no value input is needed (the debounce delay
is abstracted: `emitFilter` is what the debounced submit delivers). -/
theorem existsOperator_selection_submits (f : ActiveFilter) (lbl : Option String)
    (h : optStrTruthy f.path = true) :
    emitFilter (handleOperatorChange f (some ⟨lbl, "exists"⟩)) =
      some ⟨f.path, some "exists", .null, f.type⟩ := by
  obtain ⟨p, o, v, t⟩ := f
  have hex : opContainsExists (some "exists") = true := by decide
  have hop : optStrTruthy (some "exists") = true := by decide
  simp only [handleOperatorChange, Option.map_some]
  have hval : validateFilter ⟨p, some "exists", v, t⟩ = true := by
    rw [validateFilter_eq]
    simp [h, hop, hex]
  simp [emitFilter, hval, handleSubmit, hex]

/-- Witness for C3: selecting `"exists"` on the `age` column submits
immediately, value field untouched. -/
theorem existsOperator_selection_submits_witness :
    emitFilter (handleOperatorChange ⟨some "age", some "=", .str "30", some "number"⟩
      (some ⟨some "exists", "exists"⟩)) =
      some ⟨some "age", some "exists", .null, some "number"⟩ :=
  existsOperator_selection_submits ⟨some "age", some "=", .str "30", some "number"⟩
    (some "exists") (by decide)

/-- C4: for every filter submitted with a non-existence operator, a falsy
value (`0`, `false`, `""`, `null`) reaches `onSubmit` as `null`; boolean and
numeric falsy values do pass validation, so such a submission does occur. -/
theorem falsy_value_submitted_null (f : ActiveFilter)
    (_hop : opContainsExists f.operator = false) (hv : f.value.jsFalsy = true) :
    (handleSubmit f).value = .null ∧
      (optStrTruthy f.path = true → optStrTruthy f.operator = true →
        (f.value.isBool || f.value.isNum) = true →
        emitFilter f = some { f with value := .null }) := by
  have h1 : (handleSubmit f).value = .null := by
    simp [handleSubmit, hv]
  refine ⟨h1, ?_⟩
  intro hp ho hbn
  have hval : validateFilter f = true := by
    rw [validateFilter_eq]
    simp only [hp, ho, Bool.true_and]
    rcases Bool.or_eq_true_iff.mp hbn with hb | hn
    · simp [hb]
    · simp [hn]
  simp [emitFilter, hval, handleSubmit, hv]

/-- Witness for C4: the boolean value `false` with operator `"="` passes
validation and is submitted as `null`. -/
theorem falsy_value_submitted_null_witness :
    opContainsExists (some "=") = false ∧
      (FilterVal.bool false).jsFalsy = true ∧
      emitFilter ⟨some "flag", some "=", .bool false, some "boolean"⟩ =
        some ⟨some "flag", some "=", .null, some "boolean"⟩ :=
  ⟨by decide, by decide,
    (falsy_value_submitted_null ⟨some "flag", some "=", .bool false, some "boolean"⟩
      (by decide) (by decide)).2 (by decide) (by decide) (by decide)⟩

/-- Counterexample for C5 as stated: selecting a new column does not leave
"all other filter fields unchanged" — the `path` field itself changes to the
newly selected column.  Here the state has `path = "a"` and column `"b"` is
selected: operator, value and type behave as claimed, but `path` moves from
`"a"` to `"b"`. -/
theorem column_change_claim_cex :
    ¬ ((handleColumnChange ⟨some "a", some "=", .str "x", some "string"⟩
          (some ⟨"b", some "number", some ">"⟩)).operator = some ">" ∧
        (handleColumnChange ⟨some "a", some "=", .str "x", some "string"⟩
          (some ⟨"b", some "number", some ">"⟩)).value = .str "" ∧
        (handleColumnChange ⟨some "a", some "=", .str "x", some "string"⟩
          (some ⟨"b", some "number", some ">"⟩)).type = some "number" ∧
        (handleColumnChange ⟨some "a", some "=", .str "x", some "string"⟩
          (some ⟨"b", some "number", some ">"⟩)).path = some "a") := by
  decide

/-- C5 (amended): on every column-selection change selecting a column, the
resulting filter state has path set to the selected column's path, operator
reset to the column's declared default operator (null when none is declared),
value cleared to the empty string, and type set to the column's data type;
the filter state has no other fields. -/
theorem column_change_resets (f : ActiveFilter) (col : ColumnSelectOption) :
    handleColumnChange f (some col) =
      ⟨some col.value, col.defaultOperator, .str "", col.type⟩ :=
  rfl

/-- C6: the "all columns visible" flag is true iff the hidden-columns map is
empty or every value in it is false, and the "Show all" action is disabled
exactly when the flag is true. -/
theorem allColumnsVisible_iff (hc : List (String × Bool)) :
    (allColumnsVisible hc = true ↔ hc = [] ∨ ∀ p ∈ hc, p.2 = false) ∧
      showAllDisabled hc = allColumnsVisible hc := by
  refine ⟨?_, rfl⟩
  simp [allColumnsVisible, List.isEmpty_iff, List.all_eq_true]

/-- Witness for C6: a map whose only entry is false counts as all-visible. -/
theorem allColumnsVisible_iff_witness :
    allColumnsVisible [("name", false)] = true :=
  (allColumnsVisible_iff [("name", false)]).1.mpr (Or.inr (by decide))

/-- C7: every rows-per-page change calls `update` with the rows-per-page
parsed (base 10) from the input value and with page 0; every page change
forwards the new page number verbatim. -/
theorem pagination_update_calls (s : String) (n : Int) :
    onRowsPerPageChange s = ⟨jsParseInt10 s, 0⟩ ∧ onPageChange n = n :=
  ⟨rfl, rfl⟩

/-- For a well-formed catalog entry and type tag, the source's inclusion test
agrees with the spec's reading of it. -/
theorem operatorIncluded_eq_spec (type : Option String) (o : FilterOperator)
    (hwf : wfOperator o = true) (ht : wfType type = true) :
    operatorIncluded type o = specOperatorIncluded type o := by
  obtain ⟨v, tm⟩ := o
  cases tm with
  | none => rfl
  | some m =>
    obtain ⟨d, labels⟩ := m
    simp only [wfOperator] at hwf
    simp only [operatorIncluded, specOperatorIncluded]
    congr 1
    · cases d with
      | none => rfl
      | some s => simpa [optStrTruthy] using hwf
    · cases type with
      | none => rfl
      | some t =>
        simp only [wfType] at ht
        simp [typeKeyMem, ht]

/-- For a well-formed type tag, the label of every operator the source lists
is the spec's label (type-specific, else default, else the raw id). -/
theorem operatorLabel_eq_spec (type : Option String) (o : FilterOperator)
    (ht : wfType type = true) (hinc : operatorIncluded type o = true) :
    operatorLabel type o = some (specOperatorLabel type o) := by
  obtain ⟨v, tm⟩ := o
  cases tm with
  | none => rfl
  | some m =>
    obtain ⟨d, labels⟩ := m
    cases type with
    | none =>
      simp only [operatorIncluded, typeKeyMem, Bool.or_false] at hinc
      cases d with
      | none => simp [optStrTruthy] at hinc
      | some s => simp [operatorLabel, jsTypeLookup, specOperatorLabel, Option.orElse]
    | some t =>
      have hne : (t == "") = false := by simpa [wfType] using ht
      cases hl : lookupLabel labels t with
      | some l =>
        simp [operatorLabel, jsTypeLookup, specOperatorLabel, hne, hl, Option.orElse]
      | none =>
        simp only [operatorIncluded, typeKeyMem, hl, Option.isSome_none,
          Bool.and_false, Bool.or_false] at hinc
        cases d with
        | none => simp [optStrTruthy] at hinc
        | some s =>
          simp [operatorLabel, jsTypeLookup, specOperatorLabel, hne, hl, Option.orElse]

/-- C8: for a well-formed operator catalog (labels are non-empty strings) and
type tag, `getOperatorOptions` yields exactly the catalog operators with no
type-label map, a default label, or an explicit label for the current type,
each labelled with the type-specific label, else the default label, else the
raw operator id. -/
theorem getOperatorOptions_spec (catalog : List FilterOperator) (type : Option String)
    (hcat : ∀ o ∈ catalog, wfOperator o = true) (ht : wfType type = true) :
    getOperatorOptions catalog type =
      (catalog.filter (specOperatorIncluded type)).map
        (fun o => ⟨some (specOperatorLabel type o), o.value⟩) := by
  unfold getOperatorOptions
  have hfil : catalog.filter (operatorIncluded type) =
      catalog.filter (specOperatorIncluded type) :=
    List.filter_congr (fun o ho => operatorIncluded_eq_spec type o (hcat o ho) ht)
  rw [hfil]
  apply List.map_congr_left
  intro o ho
  have hmem : o ∈ catalog := List.mem_of_mem_filter ho
  have hinc : operatorIncluded type o = true := by
    rw [operatorIncluded_eq_spec type o (hcat o hmem) ht]
    exact List.of_mem_filter ho
  simp only [operatorLabel_eq_spec type o ht hinc]

/-- Witness for C8: a three-operator catalog (no map; map with default; map
with a `number` label only) at type `number`. -/
theorem getOperatorOptions_spec_witness :
    getOperatorOptions
      [⟨"=", none⟩, ⟨"exists", some ⟨some "exists", []⟩⟩,
        ⟨">", some ⟨none, [("number", "greater than")]⟩⟩] (some "number") =
      (([⟨"=", none⟩, ⟨"exists", some ⟨some "exists", []⟩⟩,
        ⟨">", some ⟨none, [("number", "greater than")]⟩⟩] :
          List FilterOperator).filter (specOperatorIncluded (some "number"))).map
        (fun o => ⟨some (specOperatorLabel (some "number") o), o.value⟩) :=
  getOperatorOptions_spec
    [⟨"=", none⟩, ⟨"exists", some ⟨some "exists", []⟩⟩,
      ⟨">", some ⟨none, [("number", "greater than")]⟩⟩] (some "number")
    (by decide) (by decide)

/-- The outer footer guard does not change when the plain footer row shows:
`(hasFooter || hasColGroupFooter) && hasFooter = hasFooter`. -/
theorem plainFooterRowRendered_eq (s : TableStructure) :
    plainFooterRowRendered s = hasFooter s := by
  unfold plainFooterRowRendered footerRendered
  cases h1 : hasFooter s <;> cases h2 : hasColGroupFooter s <;> rfl

/-- Likewise for the column-group footer row. -/
theorem colGroupFooterRowRendered_eq (s : TableStructure) :
    colGroupFooterRowRendered s = hasColGroupFooter s := by
  unfold colGroupFooterRowRendered footerRendered
  cases h1 : hasFooter s <;> cases h2 : hasColGroupFooter s <;> rfl

/-- C9: the plain footer row renders iff some flattened column declares a
footer; the column-group footer row renders iff some top-level entry declares
both a column group and a footer; and when both rows render, a plain-footer
cell spans 2 rows exactly when it does not belong to a column group with a
group footer, and 1 row otherwise. -/
theorem footer_rows_spec (s : TableStructure) :
    (plainFooterRowRendered s = true ↔ ∃ c ∈ s.flattened, c.footer = true) ∧
    (colGroupFooterRowRendered s = true ↔
      ∃ e ∈ s.entries, e.colGroup.isSome = true ∧ e.footer = true) ∧
    (hasFooter s = true → hasColGroupFooter s = true →
      ∀ c ∈ s.flattened, footerCellRowSpan s c =
        if c.isColGroup && c.hasColGroupFooter then 1 else 2) := by
  refine ⟨?_, ?_, ?_⟩
  · rw [plainFooterRowRendered_eq]
    simp [hasFooter, List.any_eq_true]
  · rw [colGroupFooterRowRendered_eq]
    simp [hasColGroupFooter, List.any_eq_true]
  · intro h1 h2 c hc
    unfold footerCellRowSpan
    rw [h2]
    cases hg : c.isColGroup <;> cases hf : c.hasColGroupFooter <;> simp

/-- Witness for C9: in a structure with both footer kinds, the plain-footer
cell of a column outside any footered group spans 2 rows. -/
theorem footer_rows_spec_witness :
    footerCellRowSpan
      ⟨[⟨"g", some [⟨"a", true, true, true⟩], true⟩],
        [⟨"a", true, true, true⟩, ⟨"b", false, false, false⟩]⟩
      ⟨"b", false, false, false⟩ = 2 :=
  (footer_rows_spec
    ⟨[⟨"g", some [⟨"a", true, true, true⟩], true⟩],
      [⟨"a", true, true, true⟩, ⟨"b", false, false, false⟩]⟩).2.2
    (by decide) (by decide) ⟨"b", false, false, false⟩ (by decide)

/-- C10: removal reports the row's filter `value` prop to `onRemove`, and the
remove control is disabled exactly when the row is the last one and its
filter's path is empty (so the trailing placeholder row cannot be removed). -/
theorem remove_control_spec (last : Bool) (value : ActiveFilter)
    (localFilter : ActiveFilter) :
    reportedOnRemove value localFilter = value ∧
      (removeDisabled last value = true ↔
        last = true ∧ (value.path = none ∨ value.path = some "")) := by
  refine ⟨rfl, ?_⟩
  unfold removeDisabled
  cases last <;> simp
  cases hp : value.path with
  | none => simp [optStrTruthy]
  | some s => simp [optStrTruthy, bne]

/-- Witness for C10: the trailing placeholder (last row, empty path) has its
remove control disabled. -/
theorem remove_control_spec_witness :
    removeDisabled true ⟨none, some "=", .str "", none⟩ = true :=
  (remove_control_spec true ⟨none, some "=", .str "", none⟩ EMPTY_FILTER).2.mpr
    ⟨rfl, Or.inl rfl⟩
